import Mathlib

/-!
A shallow embedding of `baremetal_prs.py`, a tool that scores merged pull
requests by the estimated cost of sideporting them, together with proofs of
the behavioural properties stated in its specification.

Python numbers are modelled as `Nat`/`Int`, true division on them as `ℚ`,
and fallible code as `Except PyError`.  External processes (git, the gh CLI,
the build toolchain) are mocked by an explicit environment record `Env`
whose fields hold the exit codes and parsed outputs those processes would
produce.
-/

/-- The Python exceptions that `baremetal_prs.py` can raise, plus
`SystemExit` as produced by a bare `exit()` call (which terminates the
interpreter with the given status code). -/
inductive PyError where
  | zeroDivisionError : PyError
  | valueError : String → PyError
  | calledProcessError : String → PyError
  | systemExit : Nat → PyError
deriving Repr, DecidableEq

/-- The `Size` class: a two-component code-size measurement (lines 13-48). -/
structure Size where
  text : Int
  data : Int
deriving Repr, DecidableEq

/-- `Size.total` (lines 46-48): the total size `text + data`. -/
def Size.total (s : Size) : Int := s.text + s.data

/-- `Size.__eq__` (lines 18-19). -/
def Size.py_eq (a b : Size) : Bool := a.text + a.data == b.text + b.data

/-- `Size.__ne__` (lines 21-22). -/
def Size.py_ne (a b : Size) : Bool := !(a.py_eq b)

/-- `Size.__lt__` (lines 24-25). -/
def Size.py_lt (a b : Size) : Bool := decide (a.text + a.data < b.text + b.data)

/-- `Size.__le__` (lines 27-28). -/
def Size.py_le (a b : Size) : Bool := a.py_lt b || a.py_eq b

/-- `Size.__gt__` (lines 30-31). -/
def Size.py_gt (a b : Size) : Bool := decide (b.text + b.data < a.text + a.data)

/-- `Size.__ge__` (lines 33-34). -/
def Size.py_ge (a b : Size) : Bool := a.py_gt b || a.py_eq b

/-- `Size.__add__` (lines 36-39): component-wise addition. -/
def Size.py_add (a b : Size) : Size := ⟨a.text + b.text, a.data + b.data⟩

/-- `Size.__sub__` (lines 41-44): component-wise subtraction. -/
def Size.py_sub (a b : Size) : Size := ⟨a.text - b.text, a.data - b.data⟩

/-- A fully collected pull-request record: the fields that
`PullRequest.get_metrics` (lines 64-137) stores on `self`. -/
structure PRMetrics where
  title : String
  commits_count : Nat
  files_count : Nat
  lines_changed : Nat
  files : List String
  dev_diff : Nat
  bytes_saved : Size
deriving Repr, DecidableEq

/-- The batch-wide maxima fields of `PullRequestGetter` (lines 211-215). -/
structure Maxima where
  max_commits : Nat
  max_files_count : Nat
  max_lines_changed : Nat
  max_dev_diff : Nat
  max_bytes_saved : Size
deriving Repr, DecidableEq

/-- The per-record maxima updates of `get_metrics_by_repo`
(lines 196-205): each tracked maximum is replaced only by a strictly
greater value, sizes being compared through `Size.__gt__`. -/
def update_maxima (mx : Maxima) (pr : PRMetrics) : Maxima :=
  { max_commits :=
      if pr.commits_count > mx.max_commits then pr.commits_count else mx.max_commits
    max_files_count :=
      if pr.files_count > mx.max_files_count then pr.files_count else mx.max_files_count
    max_lines_changed :=
      if pr.lines_changed > mx.max_lines_changed then pr.lines_changed else mx.max_lines_changed
    max_dev_diff :=
      if pr.dev_diff > mx.max_dev_diff then pr.dev_diff else mx.max_dev_diff
    max_bytes_saved :=
      if pr.bytes_saved.py_gt mx.max_bytes_saved then pr.bytes_saved else mx.max_bytes_saved }

/-- The incremental maxima tracking of `PullRequestGetter.get_metrics`:
initial values from lines 211-215 and the per-record updates of
`get_metrics_by_repo` (lines 196-205), folded over the collected records in
collection order. -/
def compute_maxima (prs : List PRMetrics) : Maxima :=
  prs.foldl update_maxima ⟨0, 0, 0, 0, Size.mk 0 0⟩

/-- `PullRequestGetter.normalise_metric` (lines 230-231):
`(pr_val / max_val) * 100`.  Python true division raises
`ZeroDivisionError` when `max_val` is zero. -/
def normalise_metric (pr_val max_val : ℚ) : Except PyError ℚ :=
  if max_val = 0 then .error .zeroDivisionError
  else .ok (pr_val / max_val * 100)

/-- `calculate_score` (lines 261-266): divide normalized bytes saved by the
average of the other four normalized metrics.  Division raises
`ZeroDivisionError` when `s / 4` is zero. -/
def calculate_score (commits files_count lines_changed dev_diff bytes_saved : ℚ) :
    Except PyError ℚ :=
  let s := commits + files_count + lines_changed + dev_diff
  if s / 4 = 0 then .error .zeroDivisionError
  else .ok (bytes_saved / (s / 4))

/-- One iteration of the `PullRequestGetter.normalise_metrics` loop
(lines 234-241): normalize the five metrics of one record against the batch
maxima and combine them with `calculate_score`. -/
def normalise_and_score (mx : Maxima) (pr : PRMetrics) : Except PyError ℚ := do
  let commits ← normalise_metric pr.commits_count mx.max_commits
  let files_count ← normalise_metric pr.files_count mx.max_files_count
  let lines_changed ← normalise_metric pr.lines_changed mx.max_lines_changed
  let dev_diff ← normalise_metric pr.dev_diff mx.max_dev_diff
  let bytes_saved ←
    normalise_metric (pr.bytes_saved.total : ℚ) (mx.max_bytes_saved.total : ℚ)
  calculate_score commits files_count lines_changed dev_diff bytes_saved

/-- `PullRequestGetter.normalise_metrics` (lines 233-241) over the whole
batch: each record's score in batch order; an exception aborts the loop. -/
def normalise_metrics (mx : Maxima) (prs : List PRMetrics) : Except PyError (List ℚ) :=
  prs.mapM (normalise_and_score mx)

/-- The scoring stage of `main` (lines 343-344): compute the batch maxima
during collection, then normalize and score every record. -/
def score_batch (prs : List PRMetrics) : Except PyError (List ℚ) :=
  normalise_metrics (compute_maxima prs) prs

/-- The specification's normalization formula, stated independently of the
code: `normalized = (value / max_value_in_batch) * 100`. -/
def spec_normalized (value max_value : ℚ) : ℚ := value / max_value * 100

/-- The specification's combination formula, stated independently of the
code: `score = normalized_bytes_saved /
((normalized_commits + normalized_files + normalized_lines_changed +
normalized_divergence) / 4)`. -/
def spec_score (nc nf nl nd nb : ℚ) : ℚ := nb / ((nc + nf + nl + nd) / 4)

/-- Python `str.startswith`, evaluated on the underlying character list. -/
def py_startswith (s pre : String) : Bool := pre.toList.isPrefixOf s.toList

/-- Python `str.endswith`, evaluated on the underlying character list. -/
def py_endswith (s suf : String) : Bool := suf.toList.isSuffixOf s.toList

/-- Python `str.strip` with no arguments: remove leading and trailing
whitespace. -/
def py_strip (s : String) : String :=
  ⟨((s.toList.dropWhile Char.isWhitespace).reverse.dropWhile Char.isWhitespace).reverse⟩

/-- The structured metadata the code reads out of
`gh pr view --json changedFiles,files,commits,additions,deletions,title`
(lines 85-99): the commit list, the changed-file counter, the addition and
deletion counters, the title, and the changed-file paths. -/
structure GhMetrics where
  title : String
  commits : List String
  changedFiles : Nat
  additions : Nat
  deletions : Nat
  files : List String
deriving Repr, DecidableEq

/-- The mocked external-process environment seen by one
`PullRequest.get_metrics` run: exit codes and outputs of the git, gh and
build invocations the code performs, keyed by the exact command string
where the code varies the command. -/
structure Env where
  checkout_returncode : Int
  metadata_json : Option GhMetrics
  diff_returncode : String → Int
  diff_output_pieces : String → List String
  build_returncode : Int
  size_report : Size

/-- The per-file diff command string of line 115. -/
def diffCmd (dev_branch f : String) : String :=
  "git diff --shortstat HEAD.." ++ dev_branch ++ " -- " ++ f

/-- Line 128: `int(''.join(i for i in s.strip() if i.isdigit()))`.  Python
`int` raises `ValueError` when the joined digit string is empty. -/
def py_int_digits (s : String) : Except PyError Nat :=
  let ds := (py_strip s).toList.filter Char.isDigit
  if ds.isEmpty then .error (.valueError "invalid literal for int with base 10")
  else .ok (ds.foldl (fun n c => 10 * n + (c.toNat - 48)) 0)

/-- The inner loop of lines 124-132 over the comma-split pieces of one
file's `--shortstat` output, accumulating the addition and deletion
totals. -/
def process_diff_pieces : List String → Nat → Nat → Except PyError (Nat × Nat)
  | [], total_add, total_del => .ok (total_add, total_del)
  | s :: rest, total_add, total_del => do
      let number ← if s = "" then pure 0 else py_int_digits s
      let total_add := if py_endswith s "(+)" then total_add + number else total_add
      let total_del := if py_endswith s "(-)" then total_del + number else total_del
      process_diff_pieces rest total_add total_del

/-- The per-file divergence loop of lines 112-133: for each remaining
changed file run the diff command, raise `CalledProcessError` on a non-zero
exit status, and otherwise accumulate the file's shortstat pieces. -/
def diff_files_loop (env : Env) (repo_name number dev_branch : String) :
    List String → Nat → Nat → Except PyError (Nat × Nat)
  | [], total_add, total_del => .ok (total_add, total_del)
  | f :: fs, total_add, total_del =>
      let cmd := diffCmd dev_branch f
      let pieces := env.diff_output_pieces cmd
      if env.diff_returncode cmd ≠ 0 then
        .error (.calledProcessError
          ("Could not get diff for HEAD.." ++ repo_name ++ " for PR " ++ number))
      else do
        let (acc_add, acc_del) ← process_diff_pieces pieces total_add total_del
        diff_files_loop env repo_name number dev_branch fs acc_add acc_del

/-- `get_baremetal_size` (lines 291-309): the build commands and the
size-report parsing are mocked by `Env`; a failing build raises
`CalledProcessError`, otherwise the parsed totals line is returned. -/
def get_baremetal_size (env : Env) : Except PyError Size :=
  if env.build_returncode ≠ 0 then
    .error (.calledProcessError "Could not build mbedtls")
  else .ok env.size_report

/-- `PullRequest.get_metrics` (lines 64-137).  Two faithfully preserved
quirks of the source: on a failed checkout, line 82 constructs
`subprocess.CalledProcessError(...)` but never raises it, so execution
continues whatever `checkout_returncode` is; and on a metadata parse
failure, lines 91-93 print the raw output and call `exit()`, which stops
the interpreter through `SystemExit` carrying exit status 0. -/
def get_metrics (repo_name number : String) (mbedtls_2_16_size : Size) (env : Env) :
    Except PyError PRMetrics :=
  let _checkout_ret := env.checkout_returncode
  match env.metadata_json with
  | none => .error (.systemExit 0)
  | some metrics => do
      let commits_count := metrics.commits.length
      let files_count := metrics.changedFiles
      let lines_changed := metrics.additions + metrics.deletions
      let files := metrics.files.filter (fun f => !(py_startswith f "ChangeLog"))
      let dev_branch :=
        if repo_name = "mbedtls" then "development" else "development-restricted"
      let (total_add, total_del) ← diff_files_loop env repo_name number dev_branch files 0 0
      let pr_size ← get_baremetal_size env
      .ok { title := metrics.title, commits_count, files_count, lines_changed, files,
            dev_diff := total_add + total_del,
            bytes_saved := mbedtls_2_16_size.py_sub pr_size }

/-- The identity fields `PullRequest.__init__` stores (lines 54-62). -/
structure PullRequest where
  repo_name : String
  number : String
deriving Repr, DecidableEq

/-- `PullRequest.__init__` (lines 56-62): reject any repository name other
than the two fixed ones, then store `pr_num[1:]` as the bare number. -/
def PullRequest.init (pr_num repo_name : String) : Except PyError PullRequest :=
  if repo_name ≠ "mbedtls" ∧ repo_name ≠ "mbedtls-restricted" then
    .error (.valueError "repo_name can only be mbedtls or mbedtls-restricted")
  else .ok ⟨repo_name, pr_num.drop 1⟩

/-- The identifier-partitioning loop of `PullRequestGetter.__init__`
(lines 153-170), over the newline-split lines of the input file: a leading
`#` routes to the mbedtls list, a leading `r` routes to the restricted
list, anything else raises `ValueError` immediately. -/
def partition_pulls : List String → Except PyError (List PullRequest × List PullRequest)
  | [] => .ok ([], [])
  | pr_number :: rest =>
      if py_startswith pr_number "#" then do
        let pr ← PullRequest.init pr_number "mbedtls"
        let (ms, rs) ← partition_pulls rest
        .ok (pr :: ms, rs)
      else if py_startswith pr_number "r" then do
        let pr ← PullRequest.init pr_number "mbedtls-restricted"
        let (ms, rs) ← partition_pulls rest
        .ok (ms, pr :: rs)
      else
        .error (.valueError ("PR Numbers should start with # for PRs from the mbedtls repository and r for PRs from the mbedtls-restricted repository. " ++ pr_number ++ " begins with neither."))

/-- A record as `print_scores` (lines 253-259) consumes it: identity plus
the score set by `normalise_metrics`. -/
structure ScoredPR where
  repo_name : String
  number : String
  score : ℚ
deriving Repr, DecidableEq

/-- The comparator realised by
`sorted(all_pulls, key=lambda x: x.score, reverse=True)` on line 255:
`a` may precede `b` exactly when `a.score ≥ b.score`. -/
def score_order (a b : ScoredPR) : Prop := b.score ≤ a.score

instance : DecidableRel score_order :=
  fun a b => inferInstanceAs (Decidable (b.score ≤ a.score))

instance : IsTotal ScoredPR score_order := ⟨fun a b => le_total b.score a.score⟩

instance : IsTrans ScoredPR score_order := ⟨fun _ _ _ hab hbc => le_trans hbc hab⟩

/-- The ordering `print_scores` (lines 253-259) prints: CPython `sorted` is
a stable sort, and with `reverse=True` it keeps equal-score elements in
input order while sorting scores descending; the unique stable sort for the
`score_order` comparator is insertion sort. -/
def print_scores_order (all_pulls : List ScoredPR) : List ScoredPR :=
  List.insertionSort score_order all_pulls

/-- C9: every `Size` comparison operator `<`, `==`, `>`, and the derived
`<=`, `>=`, `!=`, holds exactly when the same comparison holds between the
two totals; in particular `Size(3,4) == Size(5,2)` since both totals are 7. -/
theorem size_comparisons_by_total (a b : Size) :
    (a.py_lt b = true ↔ a.total < b.total) ∧
    (a.py_eq b = true ↔ a.total = b.total) ∧
    (a.py_gt b = true ↔ a.total > b.total) ∧
    (a.py_le b = true ↔ a.total ≤ b.total) ∧
    (a.py_ge b = true ↔ a.total ≥ b.total) ∧
    (a.py_ne b = true ↔ a.total ≠ b.total) ∧
    (Size.mk 3 4).py_eq (Size.mk 5 2) = true := by
  refine ⟨?_, ?_, ?_, ?_, ?_, ?_, by decide⟩ <;>
    simp [Size.py_lt, Size.py_eq, Size.py_gt, Size.py_le, Size.py_ge,
      Size.py_ne, Size.total] <;> omega

/-- Unfolding lemma for monadic bind on a successful `Except` value. -/
theorem ok_bind {e a b : Type} (x : a) (f : a -> Except e b) :
    (Except.ok x >>= f) = f x := rfl

/-- C2: when the batch-wide maximum of a metric is positive, the normalized
value equals `(raw value / batch maximum) * 100`; whenever the raw value lies
in `[0, max]` the normalized value lies in `[0, 100]`, and it equals exactly
100 for a record whose raw value equals the batch maximum. -/
theorem normalise_metric_bounds (pr_val max_val : ℚ) (hpos : 0 < max_val) :
    normalise_metric pr_val max_val = .ok (spec_normalized pr_val max_val) ∧
    (0 ≤ pr_val → pr_val ≤ max_val →
      0 ≤ spec_normalized pr_val max_val ∧ spec_normalized pr_val max_val ≤ 100) ∧
    (pr_val = max_val → spec_normalized pr_val max_val = 100) := by
  refine ⟨?_, fun h0 h1 => ⟨?_, ?_⟩, fun he => ?_⟩
  · simp [normalise_metric, spec_normalized, hpos.ne']
  · have : 0 ≤ pr_val / max_val := div_nonneg h0 hpos.le
    unfold spec_normalized
    linarith
  · have : pr_val / max_val ≤ 1 := (div_le_one hpos).2 h1
    unfold spec_normalized
    linarith
  · subst he
    simp [spec_normalized, div_self hpos.ne']

/-- Witness for C2: `normalise_metric_bounds` at `pr_val = max_val = 4`,
where the raw value sits exactly at the batch maximum. -/
theorem normalise_metric_bounds_witness :
    (0 : ℚ) < 4 ∧
    (normalise_metric 4 4 = .ok (spec_normalized 4 4) ∧
      (0 ≤ (4 : ℚ) → (4 : ℚ) ≤ 4 →
        0 ≤ spec_normalized 4 4 ∧ spec_normalized 4 4 ≤ 100) ∧
      ((4 : ℚ) = 4 → spec_normalized 4 4 = 100)) :=
  ⟨by norm_num, normalise_metric_bounds 4 4 (by norm_num)⟩

/-- C1: whenever the normalized metrics of a record are defined (all five
batch maxima are nonzero and the four-metric sum is nonzero), the combined
score equals exactly `normalized_bytes_saved / ((normalized_commits +
normalized_files + normalized_lines_changed + normalized_divergence) / 4)`,
with each normalized value given by the specification's formula. -/
theorem calculate_score_formula (mx : Maxima) (pr : PRMetrics)
    (hc : (mx.max_commits : ℚ) ≠ 0) (hf : (mx.max_files_count : ℚ) ≠ 0)
    (hl : (mx.max_lines_changed : ℚ) ≠ 0) (hd : (mx.max_dev_diff : ℚ) ≠ 0)
    (hb : (mx.max_bytes_saved.total : ℚ) ≠ 0)
    (hs : spec_normalized pr.commits_count mx.max_commits +
          spec_normalized pr.files_count mx.max_files_count +
          spec_normalized pr.lines_changed mx.max_lines_changed +
          spec_normalized pr.dev_diff mx.max_dev_diff ≠ 0) :
    normalise_and_score mx pr =
      .ok (spec_score (spec_normalized pr.commits_count mx.max_commits)
        (spec_normalized pr.files_count mx.max_files_count)
        (spec_normalized pr.lines_changed mx.max_lines_changed)
        (spec_normalized pr.dev_diff mx.max_dev_diff)
        (spec_normalized pr.bytes_saved.total mx.max_bytes_saved.total)) := by
  have hs4 : ¬((pr.commits_count : ℚ) / mx.max_commits * 100 +
      (pr.files_count : ℚ) / mx.max_files_count * 100 +
      (pr.lines_changed : ℚ) / mx.max_lines_changed * 100 +
      (pr.dev_diff : ℚ) / mx.max_dev_diff * 100) / 4 = 0 := by
    simpa [spec_normalized] using div_ne_zero hs (by norm_num : (4 : ℚ) ≠ 0)
  simp only [normalise_and_score, normalise_metric, calculate_score, if_neg hc, if_neg hf,
    if_neg hl, if_neg hd, if_neg hb, ok_bind]
  rw [if_neg hs4]
  simp only [spec_score, spec_normalized]

/-- Witness for C1: the specification's own end-to-end example, record A
with raw metrics (2, 3, 100, 50, 200) against batch maxima
(4, 6, 200, 100, 200), whose combined score is exactly 2. -/
theorem calculate_score_formula_witness :
    normalise_and_score ⟨4, 6, 200, 100, Size.mk 200 0⟩
        ⟨"A", 2, 3, 100, [], 50, Size.mk 200 0⟩ = .ok 2 := by
  have h := calculate_score_formula ⟨4, 6, 200, 100, Size.mk 200 0⟩
      ⟨"A", 2, 3, 100, [], 50, Size.mk 200 0⟩ (by norm_num) (by norm_num) (by norm_num)
      (by norm_num) (by norm_num [Size.total]) (by norm_num [spec_normalized, Size.total])
  rw [h]
  norm_num [spec_score, spec_normalized, Size.total]

/-- C3: in a batch where every record has `commits_count = 0`, the scoring
stage raises a bare `ZeroDivisionError` from the normalization division —
there is no `ScoringError` anywhere in the program, so the claimed explicit
error cannot be raised. -/
theorem zero_max_commits_zero_division :
    score_batch [⟨"A", 0, 1, 1, [], 1, Size.mk 1 0⟩, ⟨"B", 0, 2, 1, [], 1, Size.mk 1 0⟩] =
      .error .zeroDivisionError := by
  rfl

/-- C4 (code bug): a `gh pr checkout` exiting with a non-zero status does
not abort collection.  Line 82 constructs a `CalledProcessError` without
raising it, so on an otherwise benign environment `get_metrics` still
returns a fully populated record despite `checkout_returncode = 1`. -/
theorem checkout_failure_not_raised :
    get_metrics "mbedtls" "1234" (Size.mk 100 10)
      { checkout_returncode := 1
        metadata_json := some ⟨"t", ["c1"], 1, 2, 3, ["src/x.c"]⟩
        diff_returncode := fun _ => 0
        diff_output_pieces := fun _ =>
          [" 1 file changed", " 5 insertions(+)", " 2 deletions(-)"]
        build_returncode := 0
        size_report := Size.mk 90 5 } =
      .ok ⟨"t", 1, 1, 5, ["src/x.c"], 7, Size.mk 10 5⟩ := by
  rfl

/-- C5 (code bug): when the metadata response cannot be parsed, lines 91-93
print the raw output and call `exit()`: the run stops through `SystemExit`
with exit status 0 — a success status — and no `DataFormatError` exists
anywhere in the program. -/
theorem metadata_parse_failure_exits_zero :
    get_metrics "mbedtls" "1234" (Size.mk 100 10)
      { checkout_returncode := 0
        metadata_json := none
        diff_returncode := fun _ => 0
        diff_output_pieces := fun _ => []
        build_returncode := 0
        size_report := Size.mk 0 0 } =
      .error (.systemExit 0) := by
  rfl

/-- The divergence loop only consults the environment at the diff commands
of the files it is given: two environments that agree there produce the
same outcome. -/
theorem diff_files_loop_congr (env1 env2 : Env) (repo_name number dev_branch : String)
    (fs : List String) (ta td : Nat)
    (h : ∀ f ∈ fs,
      env1.diff_returncode (diffCmd dev_branch f) =
        env2.diff_returncode (diffCmd dev_branch f) ∧
      env1.diff_output_pieces (diffCmd dev_branch f) =
        env2.diff_output_pieces (diffCmd dev_branch f)) :
    diff_files_loop env1 repo_name number dev_branch fs ta td =
      diff_files_loop env2 repo_name number dev_branch fs ta td := by
  induction fs generalizing ta td with
  | nil => rfl
  | cons f fs ih =>
      obtain ⟨hr, hp⟩ := h f (by simp)
      rw [diff_files_loop, diff_files_loop, hr, hp]
      by_cases hz : env2.diff_returncode (diffCmd dev_branch f) ≠ 0
      · rw [if_pos hz, if_pos hz]
      · rw [if_neg hz, if_neg hz]
        cases process_diff_pieces
            (env2.diff_output_pieces (diffCmd dev_branch f)) ta td with
        | error e => rfl
        | ok p =>
            cases p with
            | mk a d =>
                simp only [ok_bind]
                exact ih a d (fun g hg => h g (by simp [hg]))

/-- C7: every changed file whose path begins with "ChangeLog" is excluded
from all further per-file processing.  First, the outcome of collection is
independent of the diff results at ChangeLog-prefixed paths: two
environments agreeing on the diff commands of the non-ChangeLog changed
files produce identical records.  Second, for changed files `ChangeLog`,
`ChangeLog.d/foo.txt` and `src/x.c`, only `src/x.c` is processed: its diff
alone feeds the divergence sum, and the two changelog files are never
consulted even though their mocked diff exit status of 1 would abort
collection if they were. -/
theorem changelog_files_excluded :
    (∀ (repo_name number : String) (baseline : Size) (ms : GhMetrics) (env1 env2 : Env),
      env1.metadata_json = some ms →
      env2.metadata_json = some ms →
      env1.build_returncode = env2.build_returncode →
      env1.size_report = env2.size_report →
      (∀ f ∈ ms.files, py_startswith f "ChangeLog" = false →
        env1.diff_returncode (diffCmd
            (if repo_name = "mbedtls" then "development" else "development-restricted") f) =
          env2.diff_returncode (diffCmd
            (if repo_name = "mbedtls" then "development" else "development-restricted") f) ∧
        env1.diff_output_pieces (diffCmd
            (if repo_name = "mbedtls" then "development" else "development-restricted") f) =
          env2.diff_output_pieces (diffCmd
            (if repo_name = "mbedtls" then "development" else "development-restricted") f)) →
      get_metrics repo_name number baseline env1 =
        get_metrics repo_name number baseline env2) ∧
    get_metrics "mbedtls" "42" (Size.mk 100 10)
      { checkout_returncode := 0
        metadata_json := some ⟨"t", ["c1"], 3, 5, 2,
          ["ChangeLog", "ChangeLog.d/foo.txt", "src/x.c"]⟩
        diff_returncode := fun c => if c = diffCmd "development" "src/x.c" then 0 else 1
        diff_output_pieces := fun c =>
          if c = diffCmd "development" "src/x.c" then
            [" 1 file changed", " 5 insertions(+)", " 2 deletions(-)"]
          else [""]
        build_returncode := 0
        size_report := Size.mk 90 5 } =
      .ok ⟨"t", 1, 3, 7, ["src/x.c"], 7, Size.mk 10 5⟩ := by
  constructor
  · intro repo_name number baseline ms env1 env2 h1 h2 hb hsz hd
    have hsize : get_baremetal_size env1 = get_baremetal_size env2 := by
      unfold get_baremetal_size
      rw [hb, hsz]
    have hloop := diff_files_loop_congr env1 env2 repo_name number
      (if repo_name = "mbedtls" then "development" else "development-restricted")
      (ms.files.filter (fun f => !(py_startswith f "ChangeLog"))) 0 0
      (fun f hf => by
        rw [List.mem_filter] at hf
        exact hd f hf.1 (by simpa using hf.2))
    simp only [get_metrics, h1, h2]
    rw [hloop, hsize]
  · rfl

/-- Witness for C7: two concrete environments that disagree arbitrarily on
the diff results of the two ChangeLog-prefixed changed files, but agree on
`src/x.c`, collect the same record. -/
theorem changelog_files_excluded_witness :
    get_metrics "mbedtls" "7" (Size.mk 100 10)
      { checkout_returncode := 0
        metadata_json := some ⟨"t", ["c1"], 3, 5, 2,
          ["ChangeLog", "ChangeLog.d/foo.txt", "src/x.c"]⟩
        diff_returncode := fun c => if c = diffCmd "development" "src/x.c" then 0 else 1
        diff_output_pieces := fun c =>
          if c = diffCmd "development" "src/x.c" then
            [" 1 file changed", " 5 insertions(+)", " 2 deletions(-)"]
          else [""]
        build_returncode := 0
        size_report := Size.mk 90 5 } =
    get_metrics "mbedtls" "7" (Size.mk 100 10)
      { checkout_returncode := 0
        metadata_json := some ⟨"t", ["c1"], 3, 5, 2,
          ["ChangeLog", "ChangeLog.d/foo.txt", "src/x.c"]⟩
        diff_returncode := fun c => if c = diffCmd "development" "src/x.c" then 0 else 7
        diff_output_pieces := fun c =>
          if c = diffCmd "development" "src/x.c" then
            [" 1 file changed", " 5 insertions(+)", " 2 deletions(-)"]
          else ["nonsense"]
        build_returncode := 0
        size_report := Size.mk 90 5 } :=
  changelog_files_excluded.1 "mbedtls" "7" (Size.mk 100 10)
    ⟨"t", ["c1"], 3, 5, 2, ["ChangeLog", "ChangeLog.d/foo.txt", "src/x.c"]⟩
    _ _ rfl rfl rfl rfl (by decide)

/-- C6: an identifier starting with `#` is routed to the mbedtls partition
with the prefix stripped, one starting with `r` is routed to the restricted
partition with the prefix stripped, and any other leading character makes
the input loop raise `ValueError` on the spot, whatever identifiers follow. -/
theorem identifier_partition_routing (pr_number : String) (rest : List String) :
    (py_startswith pr_number "#" = true →
      partition_pulls (pr_number :: rest) =
        (partition_pulls rest).map
          (fun p => (⟨"mbedtls", pr_number.drop 1⟩ :: p.1, p.2))) ∧
    (py_startswith pr_number "r" = true →
      partition_pulls (pr_number :: rest) =
        (partition_pulls rest).map
          (fun p => (p.1, (⟨"mbedtls-restricted", pr_number.drop 1⟩ : PullRequest) :: p.2))) ∧
    (py_startswith pr_number "#" = false → py_startswith pr_number "r" = false →
      ∃ msg, partition_pulls (pr_number :: rest) = .error (.valueError msg)) := by
  refine ⟨fun h => ?_, fun h => ?_, fun h1 h2 => ?_⟩
  · simp only [partition_pulls, h, if_true, PullRequest.init, ok_bind]
    norm_num
    cases partition_pulls rest with
    | error e => rfl
    | ok p => rfl
  · have h' : py_startswith pr_number "#" = false := by
      cases hc : py_startswith pr_number "#" with
      | false => rfl
      | true =>
          exfalso
          simp only [py_startswith] at h hc
          cases hl : pr_number.toList with
          | nil => rw [hl] at hc; simp [List.isPrefixOf] at hc
          | cons c cs =>
              rw [hl] at h hc
              simp [List.isPrefixOf] at h hc
              subst hc
              exact absurd h (by decide)
    simp only [partition_pulls, h, h', if_true, Bool.false_eq_true, if_false,
      PullRequest.init, ok_bind]
    norm_num
    cases partition_pulls rest with
    | error e => rfl
    | ok p => rfl
  · refine ⟨"PR Numbers should start with # for PRs from the mbedtls repository and r for PRs from the mbedtls-restricted repository. " ++ pr_number ++ " begins with neither.", ?_⟩
    simp only [partition_pulls, h1, h2, Bool.false_eq_true, if_false]

/-- Witness for C6: `"#1234"` yields number `"1234"` in the mbedtls
partition, `"r567"` yields number `"567"` in the restricted partition, and
`"x1"` raises `ValueError`. -/
theorem identifier_partition_routing_witness :
    partition_pulls ["#1234"] = .ok ([⟨"mbedtls", "1234"⟩], []) ∧
    partition_pulls ["r567"] = .ok ([], [⟨"mbedtls-restricted", "567"⟩]) ∧
    (∃ msg, partition_pulls ["x1"] = .error (.valueError msg)) := by
  refine ⟨?_, ?_, ?_⟩
  · rw [(identifier_partition_routing "#1234" []).1 (by decide)]
    rfl
  · rw [(identifier_partition_routing "r567" []).2.1 (by decide)]
    rfl
  · exact (identifier_partition_routing "x1" []).2.2 (by decide) (by decide)

/-- Inserting an element into the sort keeps the sublist of any fixed score
unchanged except for prepending the element when it has that score. -/
theorem filter_score_orderedInsert (c : ℚ) (x : ScoredPR) (l : List ScoredPR) :
    (List.orderedInsert score_order x l).filter (fun y => decide (y.score = c)) =
      if x.score = c then x :: l.filter (fun y => decide (y.score = c))
      else l.filter (fun y => decide (y.score = c)) := by
  induction l with
  | nil =>
      simp only [List.orderedInsert, List.filter]
      by_cases hx : x.score = c <;> simp [hx]
  | cons y ys ih =>
      by_cases hxy : score_order x y
      · rw [List.orderedInsert_of_le score_order ys hxy]
        by_cases hx : x.score = c <;> simp [List.filter_cons, hx]
      · simp only [List.orderedInsert, if_neg hxy, List.filter_cons, ih]
        by_cases hy : y.score = c
        · have hx : ¬ x.score = c := by
            intro hx
            exact hxy (by simp only [score_order, hx, hy] ; exact le_refl c)
          simp [hx, hy]
        · by_cases hx : x.score = c <;> simp [hx, hy]

/-- The full sort keeps the sublist of every fixed score unchanged: the
stability part of C8. -/
theorem filter_score_insertionSort (c : ℚ) (l : List ScoredPR) :
    (List.insertionSort score_order l).filter (fun y => decide (y.score = c)) =
      l.filter (fun y => decide (y.score = c)) := by
  induction l with
  | nil => rfl
  | cons x xs ih =>
      rw [List.insertionSort, filter_score_orderedInsert, List.filter_cons]
      by_cases hx : x.score = c
      · rw [if_pos hx, ih]
        simp [hx]
      · rw [if_neg hx, ih]
        simp [hx]

/-- C8: reporting sorts all records of both partitions together by score,
descending, with a stable sort.  The printed order is a permutation of the
batch, pairwise descending in score, and for every score value the records
holding it keep their original batch order; for scores `[10, 30, 30, 5]`
the two records scoring 30 keep their relative order and precede the 10,
which precedes the 5. -/
theorem print_scores_sorted_stable :
    (∀ l : List ScoredPR,
      List.Sorted score_order (print_scores_order l) ∧
      (print_scores_order l).Perm l ∧
      ∀ c : ℚ, (print_scores_order l).filter (fun x => decide (x.score = c)) =
        l.filter (fun x => decide (x.score = c))) ∧
    print_scores_order
        [⟨"mbedtls", "1", 10⟩, ⟨"mbedtls", "2", 30⟩,
         ⟨"mbedtls-restricted", "3", 30⟩, ⟨"mbedtls", "4", 5⟩] =
      [⟨"mbedtls", "2", 30⟩, ⟨"mbedtls-restricted", "3", 30⟩,
       ⟨"mbedtls", "1", 10⟩, ⟨"mbedtls", "4", 5⟩] := by
  refine ⟨fun l => ⟨List.sorted_insertionSort score_order l,
    List.perm_insertionSort score_order l,
    fun c => filter_score_insertionSort c l⟩, by rfl⟩

/-- Folding the maxima update over any records never lowers the tracked
bytes-saved total below zero, and records whose bytes-saved totals are all
negative never replace it. -/
theorem foldl_update_bytes (prs : List PRMetrics) :
    ∀ mx : Maxima, 0 ≤ mx.max_bytes_saved.total →
      0 ≤ (prs.foldl update_maxima mx).max_bytes_saved.total ∧
      ((∀ pr ∈ prs, pr.bytes_saved.total < 0) →
        (prs.foldl update_maxima mx).max_bytes_saved = mx.max_bytes_saved) := by
  induction prs with
  | nil => exact fun mx h => ⟨h, fun _ => rfl⟩
  | cons pr rest ih =>
      intro mx h
      constructor
      · refine (ih _ ?_).1
        by_cases hgt : pr.bytes_saved.py_gt mx.max_bytes_saved
        · simp only [update_maxima, hgt, if_true]
          have h2 : 0 ≤ mx.max_bytes_saved.text + mx.max_bytes_saved.data := h
          simp only [Size.py_gt, Size.total, decide_eq_true_eq] at hgt ⊢
          omega
        · simp only [update_maxima, hgt, if_false]
          exact h
      · intro hneg
        have hpr := hneg pr (by simp)
        have hgt : pr.bytes_saved.py_gt mx.max_bytes_saved = false := by
          have h2 : 0 ≤ mx.max_bytes_saved.text + mx.max_bytes_saved.data := h
          have hpr2 : pr.bytes_saved.text + pr.bytes_saved.data < 0 := hpr
          simp only [Size.py_gt, decide_eq_false_iff_not, not_lt]
          omega
        rw [List.foldl_cons]
        refine Eq.trans ((ih _ ?_).2 (fun p hp => hneg p (by simp [hp]))) ?_
        · simp only [update_maxima, hgt, if_false]
          exact h
        · simp [update_maxima, hgt]

/-- C10: throughout and after collection the tracked maximum for bytes
saved always has a nonnegative total — it starts at `Size(0,0)` and is only
replaced by a strictly greater value — so in a batch where every record has
a negative bytes-saved total the tracked maximum remains `Size(0,0)` and
the bytes-saved normalization divides by a zero total, raising
`ZeroDivisionError`. -/
theorem max_bytes_saved_nonneg (prs : List PRMetrics) :
    0 ≤ (compute_maxima prs).max_bytes_saved.total ∧
    ((∀ pr ∈ prs, pr.bytes_saved.total < 0) →
      (compute_maxima prs).max_bytes_saved = Size.mk 0 0 ∧
      ∀ q : ℚ, normalise_metric q ((compute_maxima prs).max_bytes_saved.total : ℚ) =
        .error .zeroDivisionError) := by
  have h0 : (0 : Int) ≤ (Size.mk 0 0).total := by decide
  refine ⟨(foldl_update_bytes prs ⟨0, 0, 0, 0, Size.mk 0 0⟩ h0).1, fun hneg => ?_⟩
  have he : (compute_maxima prs).max_bytes_saved = Size.mk 0 0 :=
    (foldl_update_bytes prs ⟨0, 0, 0, 0, Size.mk 0 0⟩ h0).2 hneg
  refine ⟨he, fun q => ?_⟩
  rw [he]
  simp [normalise_metric, Size.total]

/-- Witness for C10: a one-record batch whose bytes-saved total is
negative keeps `Size(0,0)` as the tracked maximum, and the bytes-saved
normalization of the record then raises `ZeroDivisionError`. -/
theorem max_bytes_saved_nonneg_witness :
    (compute_maxima [⟨"A", 1, 1, 1, [], 1, Size.mk (-3) 1⟩]).max_bytes_saved = Size.mk 0 0 ∧
    normalise_metric (-2)
        ((compute_maxima [⟨"A", 1, 1, 1, [], 1, Size.mk (-3) 1⟩]).max_bytes_saved.total : ℚ) =
      .error .zeroDivisionError :=
  ⟨((max_bytes_saved_nonneg [⟨"A", 1, 1, 1, [], 1, Size.mk (-3) 1⟩]).2 (by decide)).1,
   ((max_bytes_saved_nonneg [⟨"A", 1, 1, 1, [], 1, Size.mk (-3) 1⟩]).2 (by decide)).2 (-2)⟩
